import Mathlib

/-!
# fastx402 (TypeScript) — shallow embedding and verification

This file embeds the server middleware (`src/server.ts`, provided as
`src/unnamed/part_001`), the shared utilities (`src/utils.ts`, in
`src/README.md`'s second segment), the type definitions
(`src/unnamed/part_000`), the fetch wrapper (`src/fetchWrapper.ts`) and the
client (`src/client/index.ts`) into Lean, and proves or refutes the frozen
claims about them.

Modelling conventions:
* JavaScript optional / possibly-`undefined` values become `Option`;
  JS truthiness on strings (`""` is falsy) and numbers (`0` is falsy) is
  modelled explicitly where the source relies on it (`a || b`, `if (!x)`).
* External primitives from `ethers` are parameters of the embedding:
  `recover` models `ethers.recoverAddress` composed with `ethers.getBytes`
  (returning `none` where the original throws), and `ga` models
  `ethers.getAddress` (an `Except` since it throws on invalid addresses).
* `ethers.TypedDataEncoder.hash` (keccak-based) is modelled as an injective
  function of its input: a `MessageHash` is the (domain, message) pair that
  is fed to the hash.  This is the idealized collision-free reading the
  specification itself relies on ("no collision tolerance").
* Exceptions become `Except` / explicit error channels; a caught exception's
  `error.message` is the carried `String`.
* The Express response object is modelled as a small state machine with
  Node's real semantics: the headers and status are flushed to the wire by
  `res.json` (which ends the response), and `res.setHeader` on an
  already-sent response fails with `ERR_HTTP_HEADERS_SENT` instead of
  changing the wire.  `res.status` merely records a pending status code.
* `Date.now`, `ethers.randomBytes` and the network are parameters
  (`now`, `entropy`, `net`), making every definition executable.
-/

/-- Lower-case an ASCII character; models JavaScript `toLowerCase` on the
ASCII range used by addresses and header names. -/
def asciiLowerChar (c : Char) : Char :=
  if 'A' ≤ c ∧ c ≤ 'Z' then Char.ofNat (c.toNat + 32) else c

/-- Lower-case an ASCII string (JS `String.prototype.toLowerCase`),
defined over the character list so it evaluates by structural recursion. -/
def asciiLower (s : String) : String :=
  String.mk (s.data.map asciiLowerChar)

/-- JS truthiness of an optional string: `undefined`/`null` and `""` are
falsy. -/
def jsFalsyStr (o : Option String) : Bool :=
  match o with
  | none => true
  | some s => s.isEmpty

/-- JS `a || b` for an optional string (falls through on falsy, i.e. also on
the empty string). -/
def jsOrStr (o : Option String) (d : String) : String :=
  match o with
  | some s => if s.isEmpty then d else s
  | none => d

/-- JS `a || b` for an optional number (falls through on falsy, i.e. also on
`0`). -/
def jsOrNat (o : Option Nat) (d : Nat) : Nat :=
  match o with
  | some n => if n = 0 then d else n
  | none => d

/-! ## Data model (`src/types.ts`, given as `src/unnamed/part_000`) -/

/-- `PaymentChallenge` from `src/types.ts`. -/
structure PaymentChallenge where
  price : String
  currency : String
  chain_id : Nat
  merchant : String
  timestamp : Nat
  description : Option String
  nonce : Option String
deriving DecidableEq, Repr

/-- `PaymentVerificationResult` from `src/types.ts`. -/
structure PaymentVerificationResult where
  valid : Bool
  signer : Option String
  error : Option String
  txHash : Option String
deriving DecidableEq, Repr

/-- The payment mode, `"instant" | "embedded"` in `src/types.ts`. -/
inductive Mode where
  | instant
  | embedded
deriving DecidableEq, Repr

/-- `PaymentConfig` from `src/types.ts` (`waasConfig`, an opaque record the
core never reads, is omitted). -/
structure PaymentConfig where
  merchantAddress : String
  chainId : Option Nat
  currency : Option String
  mode : Option Mode
  waasProvider : Option String
deriving DecidableEq, Repr

/-- `RoutePaymentConfig` from `src/types.ts`. -/
structure RoutePaymentConfig where
  price : String
  currency : Option String
  chainId : Option Nat
  description : Option String
deriving DecidableEq, Repr

/-- The `verifyPayment` capability of a `WalletProvider` (embedded mode);
the external provider is modelled as a pure function. -/
def WalletProviderFn : Type :=
  PaymentChallenge → String → String → PaymentVerificationResult

/-! ## SignatureCodec (`src/utils.ts`) -/

/-- The EIP-712 domain record built by `getEIP712Domain`. -/
structure EIP712Domain where
  name : String
  version : String
  chainId : Nat
  verifyingContract : String
deriving DecidableEq, Repr

/-- `getEIP712Domain` from `src/utils.ts`. -/
def getEIP712Domain (chainId : Nat) : EIP712Domain :=
  { name := "x402"
    version := "1"
    chainId := chainId
    verifyingContract := "0x0000000000000000000000000000000000000000" }

/-- `getEIP712Types` from `src/utils.ts`: the fixed field name/type schema of
the signed `Payment` record.  It is constant, so it is recorded for fidelity
but does not need to appear inside `MessageHash`. -/
def getEIP712Types : List (String × String) :=
  [("price", "string"), ("currency", "string"), ("chainId", "uint256"),
   ("merchant", "address"), ("timestamp", "uint256"),
   ("description", "string")]

/-- The message record built by `createPaymentMessage`. -/
structure PaymentMessage where
  price : String
  currency : String
  chainId : Nat
  merchant : String
  timestamp : Nat
  description : String
deriving DecidableEq, Repr

/-- `createPaymentMessage` from `src/utils.ts`.  `ga` models
`ethers.getAddress` (checksummed address normalization; throws — `.error` —
on an invalid address). -/
def createPaymentMessage (ga : String → Except String String)
    (challenge : PaymentChallenge) : Except String PaymentMessage :=
  match ga challenge.merchant with
  | .error e => .error e
  | .ok m =>
      .ok { price := challenge.price
            currency := challenge.currency
            chainId := challenge.chain_id
            merchant := m
            timestamp := challenge.timestamp
            description := challenge.description.getD "" }

/-- The structured-data hash.  `ethers.TypedDataEncoder.hash` is modelled as
an injective function of the (domain, message) pair it hashes, so a
`MessageHash` is that pair itself (idealized collision-free keccak). -/
structure MessageHash where
  domain : EIP712Domain
  message : PaymentMessage
deriving DecidableEq, Repr

/-- `encodePaymentMessage` from `src/utils.ts`: hash the typed data for the
domain of `challenge.chain_id` and the message of `createPaymentMessage`. -/
def encodePaymentMessage (ga : String → Except String String)
    (challenge : PaymentChallenge) : Except String MessageHash :=
  match createPaymentMessage ga challenge with
  | .error e => .error e
  | .ok m => .ok { domain := getEIP712Domain challenge.chain_id, message := m }

/-- `verifySignature` from `src/utils.ts`.  `recover` models
`ethers.recoverAddress (ethers.getBytes hash) signature`; `none` models the
throwing cases, which the source's `try`/`catch` converts to `false`. -/
def verifySignature (recover : String → MessageHash → Option String)
    (signature : String) (messageHash : MessageHash) (signer : String) :
    Bool :=
  match recover signature messageHash with
  | some recovered => asciiLower recovered == asciiLower signer
  | none => false

/-- The lower-case hexadecimal digit character for a value below sixteen
(codepoint arithmetic: digits from `'0'`, letters from `'a'`). -/
def hexDigit (n : Nat) : Char :=
  if n < 10 then Char.ofNat (48 + n) else Char.ofNat (87 + n)

/-- One byte as two lower-case hex characters (as `ethers.hexlify` prints). -/
def byteToHex (b : Nat) : String :=
  String.mk [hexDigit (b / 16 % 16), hexDigit (b % 16)]

/-- The concatenated two-character hex codes of a byte sequence. -/
def hexBody : List Nat → String
  | [] => ""
  | b :: bs => byteToHex b ++ hexBody bs

/-- `ethers.hexlify`: `"0x"` followed by two hex characters per byte. -/
def hexlify (bytes : List Nat) : String :=
  "0x" ++ hexBody bytes

/-- `generateNonce` from `src/utils.ts`:
`ethers.hexlify(ethers.randomBytes(16))`.  The random bytes drawn by
`ethers.randomBytes(16)` are the `entropy` parameter. -/
def generateNonce (entropy : List Nat) : String :=
  hexlify entropy

/-! ## ChallengeFactory (`createChallenge` in `src/server.ts`) -/

/-- `createChallenge` from `src/server.ts`.  `now` models
`Math.floor(Date.now() / 1000)` and `entropy` the bytes drawn by
`generateNonce`'s call to `ethers.randomBytes(16)`.  The `||` fallbacks use
JS truthiness (`""` and `0` fall through). -/
def createChallenge (routeConfig : RoutePaymentConfig)
    (serverConfig : PaymentConfig) (now : Nat) (entropy : List Nat) :
    PaymentChallenge :=
  { price := routeConfig.price
    currency := jsOrStr routeConfig.currency (jsOrStr serverConfig.currency "USDC")
    chain_id := jsOrNat routeConfig.chainId (jsOrNat serverConfig.chainId 8453)
    merchant := serverConfig.merchantAddress
    timestamp := now
    description := routeConfig.description
    nonce := some (generateNonce entropy) }

/-! ## VerificationEngine (`verifyPaymentHeader` in `src/server.ts`) -/

/-- The fields of the JSON object carried by the `X-PAYMENT` header, as
destructured by `verifyPaymentHeader`; each may be absent from the parsed
object. -/
structure PaymentData where
  signature : Option String
  signer : Option String
  challenge : Option PaymentChallenge
deriving DecidableEq, Repr

/-- The `x-payment` request header as `verifyPaymentHeader` observes it:
absent (or empty, which every truthiness check in the source treats the same
way), present but not valid JSON (`JSON.parse` throws with the carried
message), or parsed into an object. -/
inductive RawPaymentHeader where
  | absent
  | invalidJson (errMsg : String)
  | json (data : PaymentData)
deriving DecidableEq, Repr

/-- `verifyPaymentHeader` from `src/server.ts`.  `wp` is the optional global
`WalletProvider` (its `verifyPayment` method), `recover` and `ga` the
external ethers primitives, `hdr` the request's `x-payment` header.  The
source's `try`/`catch` appears as the `invalidJson` case (a `JSON.parse`
throw) and the `.error` case of `encodePaymentMessage` (a `getAddress`
throw); the Lean function is total, so verification never raises. -/
def verifyPaymentHeader (config : PaymentConfig) (wp : Option WalletProviderFn)
    (recover : String → MessageHash → Option String)
    (ga : String → Except String String) (hdr : RawPaymentHeader) :
    PaymentVerificationResult :=
  match hdr with
  | .absent =>
      { valid := false, signer := none,
        error := some "Missing X-PAYMENT header", txHash := none }
  | .invalidJson errMsg =>
      { valid := false, signer := none,
        error := some ("Verification error: " ++ errMsg), txHash := none }
  | .json paymentData =>
      match paymentData.signature, paymentData.signer,
            paymentData.challenge with
      | some signature, some signer, some challenge =>
          if signature.isEmpty || signer.isEmpty then
            { valid := false, signer := none,
              error := some "Invalid payment header format", txHash := none }
          else
            match config.mode, wp with
            | some Mode.embedded, some provider =>
                provider challenge signature signer
            | _, _ =>
                match encodePaymentMessage ga challenge with
                | .error errMsg =>
                    { valid := false, signer := none,
                      error := some ("Verification error: " ++ errMsg),
                      txHash := none }
                | .ok messageHash =>
                    if verifySignature recover signature messageHash signer then
                      { valid := true, signer := some signer,
                        error := none, txHash := none }
                    else
                      { valid := false, signer := none,
                        error := some "Signature verification failed",
                        txHash := none }
      | _, _, _ =>
          { valid := false, signer := none,
            error := some "Invalid payment header format", txHash := none }

/-! ## The Express response object

Modelled with Node's semantics: `res.json` flushes status, headers and body
to the wire and ends the response; any later `res.setHeader` fails with
`ERR_HTTP_HEADERS_SENT`, and a later `res.json` fails without altering what
was already sent. -/

/-- The JSON bodies this middleware sends. -/
structure JsonBody where
  error : String
  challenge : Option PaymentChallenge
  verificationError : Option String
  message : Option String
deriving DecidableEq, Repr

/-- What actually went out on the wire once the response was sent. -/
structure WireResponse where
  status : Nat
  headers : List (String × String)
  body : JsonBody
deriving DecidableEq, Repr

/-- The mutable Express response object: a pending status and headers, and
the frozen wire snapshot once sent. -/
structure ResState where
  pendingStatus : Nat
  pendingHeaders : List (String × String)
  wire : Option WireResponse
deriving DecidableEq, Repr

/-- A fresh response object for an incoming request. -/
def resInit : ResState :=
  { pendingStatus := 200, pendingHeaders := [], wire := none }

/-- Case-insensitive header lookup (how `Headers.get` and HTTP treat header
names). -/
def headersGet (hs : List (String × String)) (k : String) : Option String :=
  (hs.find? (fun p => asciiLower p.fst == asciiLower k)).map Prod.snd

/-- Case-insensitive header replacement (`Headers.set` / `res.setHeader`
semantics: replaces any previous value for the same name). -/
def headersSet (hs : List (String × String)) (k v : String) :
    List (String × String) :=
  hs.filter (fun p => !(asciiLower p.fst == asciiLower k)) ++ [(k, v)]

/-- `res.status(n)`: records the status code to send. -/
def resStatus (n : Nat) (r : ResState) : ResState :=
  { r with pendingStatus := n }

/-- `res.setHeader(k, v)`: fails with `ERR_HTTP_HEADERS_SENT` once the
response has been sent. -/
def resSetHeader (k v : String) (r : ResState) : ResState × Option String :=
  match r.wire with
  | some _ => (r, some "Cannot set headers after they are sent to the client")
  | none =>
      ({ r with pendingHeaders := headersSet r.pendingHeaders k v }, none)

/-- `res.json(body)`: sends the response (freezing the wire snapshot); on an
already-sent response it fails and the wire is unchanged. -/
def resJson (body : JsonBody) (r : ResState) : ResState × Option String :=
  match r.wire with
  | some _ => (r, some "write after end")
  | none =>
      ({ r with
          wire := some { status := r.pendingStatus,
                         headers := r.pendingHeaders, body := body } }, none)

/-! ## ResourceGuard (`issue402Response` and `x402Middleware` in
`src/server.ts`) -/

/-- `issue402Response` from `src/server.ts`:
`res.status(402).json({error, challenge})` followed by
`res.setHeader("X-Payment-Required", "true")` — in that order. -/
def issue402Response (res : ResState) (challenge : PaymentChallenge) :
    ResState × Option String :=
  let r1 := resStatus 402 res
  let (r2, e2) := resJson
    { error := "Payment Required", challenge := some challenge,
      verificationError := none, message := none } r1
  match e2 with
  | some e => (r2, some e)
  | none => resSetHeader "X-Payment-Required" "true" r2

/-- The outcome of one middleware invocation: the final response-object
state, whether `next()` was called (control handed to the protected route),
and any error that escaped the async handler (a rejected promise Express 4
does not observe). -/
structure MiddlewareOut where
  res : ResState
  nextCalled : Bool
  unhandled : Option String
deriving DecidableEq, Repr

/-- The middleware's `catch` block: `res.status(500).json({...})`.  If the
response was already sent this itself fails, leaving the wire unchanged. -/
def middlewareCatch (r : ResState) (msg : String) : ResState × Option String :=
  resJson
    { error := "Internal server error", challenge := none,
      verificationError := none, message := some msg }
    (resStatus 500 r)

/-- `x402Middleware routeConfig` from `src/server.ts`, applied to one
request.  `config` is the global configuration snapshot (`getConfig()`),
`wp` the optional global wallet provider, `hdr` the request's `x-payment`
header, `now`/`entropy` the time and randomness drawn by `createChallenge`,
and `res` the fresh response object.  The request-object annotations
(`req.x402Challenge`, `req.x402Verified`) do not affect any claim and are
not tracked. -/
def x402Middleware (routeConfig : RoutePaymentConfig) (config : PaymentConfig)
    (wp : Option WalletProviderFn)
    (recover : String → MessageHash → Option String)
    (ga : String → Except String String) (now : Nat) (entropy : List Nat)
    (hdr : RawPaymentHeader) (res : ResState) : MiddlewareOut :=
  match hdr with
  | .absent =>
      let challenge := createChallenge routeConfig config now entropy
      let (r1, e1) := issue402Response res challenge
      match e1 with
      | none => { res := r1, nextCalled := false, unhandled := none }
      | some msg =>
          let (r2, e2) := middlewareCatch r1 msg
          { res := r2, nextCalled := false, unhandled := e2 }
  | hdr' =>
      let verification := verifyPaymentHeader config wp recover ga hdr'
      if verification.valid then
        let (r1, e1) := resSetHeader "X-Payment-Response" "verified" res
        match e1 with
        | none => { res := r1, nextCalled := true, unhandled := none }
        | some msg =>
            let (r2, e2) := middlewareCatch r1 msg
            { res := r2, nextCalled := false, unhandled := e2 }
      else
        let challenge := createChallenge routeConfig config now entropy
        let r1 := resStatus 402 res
        let (r2, e2) := resJson
          { error := "Payment Required", challenge := some challenge,
            verificationError := verification.error, message := none } r1
        match e2 with
        | some msg =>
            let (r3, e3) := middlewareCatch r2 msg
            { res := r3, nextCalled := false, unhandled := e3 }
        | none =>
            let (r3, e3) := resSetHeader "X-Payment-Required" "true" r2
            match e3 with
            | none => { res := r3, nextCalled := false, unhandled := none }
            | some msg =>
                let (r4, e4) := middlewareCatch r3 msg
                { res := r4, nextCalled := false, unhandled := e4 }

/-! ## RetryingTransport (`src/fetchWrapper.ts` and `src/client/index.ts`)

The network is a parameter `net : Nat → ClientResponse` giving the response
to the n-th call of this invocation; the transports return the final
response together with the list of requests actually issued, so call counts
and request contents are part of the observable behaviour. -/

/-- The method, headers and body of a request as actually issued on the
network (the effective request).  `Headers` objects and header records are
modelled as association lists with case-insensitive access
(`headersGet`/`headersSet`).  The same record serves as `X402Client`'s
`options: RequestInit`, whose input is always a string URL, so there the
absent-headers member and an empty `Headers` are observationally equal. -/
structure ClientRequest where
  method : Option String
  headers : List (String × String)
  body : Option String
deriving DecidableEq, Repr

/-- A fetch `RequestInit`: every member optional (an absent `headers` member
is distinct from an empty `Headers`, because a present member overrides a
`Request` object's headers). -/
structure RequestInit where
  method : Option String
  headers : Option (List (String × String))
  body : Option String
deriving DecidableEq, Repr

/-- The `input: RequestInfo | URL` argument of `fetch`: a URL (string or
`URL` object, carrying no request fields) or a `Request` object with its
own method, headers and body. -/
inductive FetchInput where
  | url (u : String)
  | request (r : ClientRequest)
deriving DecidableEq, Repr

/-- The request `fetch(input, init)` actually issues: each present `init`
member overrides the corresponding field of a `Request` object given as
`input` — in particular a present `init.headers` replaces the `Request`'s
headers wholesale (fetch semantics).  A plain URL input contributes no
method, headers or body. -/
def effectiveRequest (input : FetchInput) (init : Option RequestInit) :
    ClientRequest :=
  let base : ClientRequest :=
    match input with
    | .url _ => { method := none, headers := [], body := none }
    | .request r => r
  match init with
  | none => base
  | some i =>
      { method := i.method <|> base.method
        headers :=
          match i.headers with
          | some hs => hs
          | none => base.headers
        body := i.body <|> base.body }

deriving instance DecidableEq for Except

/-- A fetch `Response` as the transports observe it: the status, and the
outcome of `response.json()` projected to its `challenge` field (`.error`
when `json()` throws, `.ok none` when the body has no truthy challenge). -/
structure ClientResponse where
  status : Nat
  body : Except String (Option PaymentChallenge)
deriving DecidableEq, Repr

/-- `x402Fetch` from `src/fetchWrapper.ts` (with a handler present —
otherwise it throws before any network call).  `input` and `init` are the
source's `input: RequestInfo | URL` and `init?: RequestInit`; `handler`
models the `handleX402` callback: `none` covers both a falsy
(null/undefined) resolved value and a throw, which the source's `catch`
treats identically by returning the original 402; an empty-string result is
likewise falsy.  The retry builds `new Headers(init?.headers)` — from the
`init` argument only, not from a `Request` object input — sets `X-PAYMENT`,
and re-issues `fetchFn(input, {...init, headers})`.  Returns the final
response and the effective requests issued, in order. -/
def x402Fetch (handler : PaymentChallenge → Option String)
    (net : Nat → ClientResponse) (input : FetchInput)
    (init : Option RequestInit) : ClientResponse × List ClientRequest :=
  let response := net 0
  if response.status = 402 then
    match response.body with
    | .error _ => (response, [effectiveRequest input init])
    | .ok none => (response, [effectiveRequest input init])
    | .ok (some challenge) =>
        match handler challenge with
        | none => (response, [effectiveRequest input init])
        | some paymentHeader =>
            if paymentHeader.isEmpty then
              (response, [effectiveRequest input init])
            else
              let headers :=
                headersSet ((init.bind fun i => i.headers).getD [])
                  "X-PAYMENT" paymentHeader
              let retryInit : RequestInit :=
                { method := init.bind fun i => i.method
                  headers := some headers
                  body := init.bind fun i => i.body }
              (net 1, [effectiveRequest input init,
                       effectiveRequest input (some retryInit)])
  else (response, [effectiveRequest input init])

/-- The effective retried request of `x402Fetch`: `init`'s method and body
carried over, headers rebuilt from `init`'s headers member alone plus the
payment header (all under the override rules of `effectiveRequest`). -/
def x402FetchRetry (input : FetchInput) (init : Option RequestInit)
    (paymentHeader : String) : ClientRequest :=
  effectiveRequest input
    (some { method := init.bind fun i => i.method
            headers := some (headersSet
              ((init.bind fun i => i.headers).getD []) "X-PAYMENT"
              paymentHeader)
            body := init.bind fun i => i.body })

/-- `PaymentSignature` from `src/types.ts`. -/
structure PaymentSignature where
  signature : String
  signer : String
  challenge : PaymentChallenge
  messageHash : Option String
deriving DecidableEq, Repr

namespace X402Client

/-- `X402Client.createPaymentHeader`: `JSON.stringify` of the assertion.
`stringify` is the external JSON serializer. -/
def createPaymentHeader (stringify : PaymentSignature → String)
    (signatureData : PaymentSignature) : String :=
  stringify signatureData

/-- `X402Client.request` from `src/client/index.ts`.  `rpcHandler` is the
optional configured handler (`none` both for "never configured" and models
its absence at call time); a handler result of `none` models a resolved
`null`.  Throws (`.error`) carry the message the source would raise; every
failure inside the 402-handling `try` is re-raised as
`"Failed to handle 402 challenge: <message>"`. -/
def request (rpcHandler : Option (PaymentChallenge → Option PaymentSignature))
    (stringify : PaymentSignature → String) (net : Nat → ClientResponse)
    (req : ClientRequest) : Except String ClientResponse × List ClientRequest :=
  let response := net 0
  if response.status = 402 then
    match response.body with
    | .error m => (.error ("Failed to handle 402 challenge: " ++ m), [req])
    | .ok none =>
        (.error "Failed to handle 402 challenge: Invalid 402 challenge format",
         [req])
    | .ok (some challenge) =>
        match rpcHandler with
        | none =>
            (.error ("Failed to handle 402 challenge: No RPC handler configured. Use setRpcHandler() or provide rpcHandler in constructor."),
             [req])
        | some handler =>
            match handler challenge with
            | none =>
                (.error "Failed to handle 402 challenge: Failed to obtain payment signature",
                 [req])
            | some paymentData =>
                let paymentHeader := createPaymentHeader stringify paymentData
                let retryReq :=
                  { req with
                      headers := headersSet req.headers "X-PAYMENT" paymentHeader }
                (.ok (net 1), [req, retryReq])
  else (.ok response, [req])

end X402Client

/-! ## Helper lemmas -/

/-- Two hex characters per byte: the nonce body is twice the byte count. -/
theorem hexBody_length (bs : List Nat) : (hexBody bs).length = 2 * bs.length := by
  induction bs with
  | nil => rfl
  | cons b t ih =>
      simp only [hexBody, String.length_append, ih, List.length_cons]
      have hb : (byteToHex b).length = 2 := rfl
      omega

/-- A generated nonce is `"0x"` plus two hex characters per entropy byte. -/
theorem generateNonce_length (bs : List Nat) :
    (generateNonce bs).length = 2 + 2 * bs.length := by
  simp only [generateNonce, hexlify, String.length_append, hexBody_length]
  rfl

/-- After `headersSet hs k v`, looking up `k` (case-insensitively) yields
`v`. -/
theorem headersGet_headersSet_self (hs : List (String × String)) (k v : String) :
    headersGet (headersSet hs k v) k = some v := by
  induction hs with
  | nil => simp [headersGet, headersSet, List.find?]
  | cons p t ih =>
      by_cases hp : asciiLower p.fst = asciiLower k
      · simp only [headersGet, headersSet] at ih ⊢
        simp [List.filter_cons, hp, ih]
      · simp only [headersGet, headersSet] at ih ⊢
        simp [List.filter_cons, List.find?, hp, ih]

/-- Removing the entries named (case-insensitively) `k'` does not change a
`find?` for a name other than `k'`. -/
theorem find?_filter_headersKey (hs : List (String × String)) (k k' : String)
    (h : asciiLower k ≠ asciiLower k') :
    List.find? (fun p => asciiLower p.fst == asciiLower k)
        (hs.filter (fun p => !(asciiLower p.fst == asciiLower k'))) =
      List.find? (fun p => asciiLower p.fst == asciiLower k) hs := by
  have hne : (asciiLower k' == asciiLower k) = false :=
    beq_eq_false_iff_ne.mpr (fun hk => h hk.symm)
  have hne' : (asciiLower k == asciiLower k') = false :=
    beq_eq_false_iff_ne.mpr h
  induction hs with
  | nil => rfl
  | cons p t ih =>
      by_cases hp : asciiLower p.fst = asciiLower k'
      · have hq : (asciiLower p.fst == asciiLower k) = false :=
          beq_eq_false_iff_ne.mpr (fun hk => h (hk.symm.trans hp))
        simp [List.filter_cons, List.find?, hp, hq, hne, ih]
      · by_cases hq : asciiLower p.fst = asciiLower k
        · simp [List.filter_cons, List.find?, hp, hq, hne', ih]
        · have hq' : (asciiLower p.fst == asciiLower k) = false :=
            beq_eq_false_iff_ne.mpr hq
          simp [List.filter_cons, List.find?, hp, hq', ih]

/-- `headersSet hs k' v` leaves every lookup at a name that differs
case-insensitively from `k'` unchanged. -/
theorem headersGet_headersSet_ne (hs : List (String × String)) (k k' v : String)
    (h : asciiLower k ≠ asciiLower k') :
    headersGet (headersSet hs k' v) k = headersGet hs k := by
  have hne : (asciiLower k' == asciiLower k) = false :=
    beq_eq_false_iff_ne.mpr (fun hk => h hk.symm)
  simp only [headersGet, headersSet, List.find?_append,
    find?_filter_headersKey hs k k' h]
  cases hfind : List.find? (fun p => asciiLower p.fst == asciiLower k) hs <;>
    simp [List.find?, hne]

/-! ## Concrete fixtures for witnesses and counterexamples -/

/-- A configured server (the shape `configureX402` stores, instant mode). -/
def cfgEx : PaymentConfig :=
  { merchantAddress := "0x742d35Cc6634C0532925a3b844Bc9e7595f0bEb0"
    chainId := some 8453
    currency := some "USDC"
    mode := some Mode.instant
    waasProvider := none }

/-- A route configuration like the README's `/paid` example. -/
def rcEx : RoutePaymentConfig :=
  { price := "0.01", currency := some "USDC", chainId := some 8453,
    description := some "Example paid endpoint" }

/-- A concrete instantiation of `ethers.getAddress` that accepts its input
unchanged; legitimate for merchant strings the claims keep fixed. -/
def gaId : String → Except String String := fun s => .ok s

/-- Sixteen concrete bytes standing for one draw of
`ethers.randomBytes(16)`. -/
def entropy16 : List Nat :=
  [1, 2, 3, 4, 5, 6, 7, 8, 9, 10, 11, 12, 13, 14, 15, 16]

/-- A challenge with no description. -/
def chA : PaymentChallenge :=
  { price := "0.01", currency := "USDC", chain_id := 8453,
    merchant := "0x742d35Cc6634C0532925a3b844Bc9e7595f0bEb0",
    timestamp := 1699123456, description := none, nonce := none }

/-- `chA` with the description set to the empty string: a different
`description` field value. -/
def chB : PaymentChallenge :=
  { chA with description := some "" }

/-- The common hash of `chA` and `chB` under `gaId`. -/
def hashAB : MessageHash :=
  { domain := getEIP712Domain 8453
    message :=
      { price := "0.01", currency := "USDC", chainId := 8453,
        merchant := "0x742d35Cc6634C0532925a3b844Bc9e7595f0bEb0",
        timestamp := 1699123456, description := "" } }

/-! ## C10 -/

/-- C10: `encodePaymentMessage` is independent of the challenge's nonce
field — for every challenge and any two nonce values (including an absent
nonce) the encoded hash is identical, so the signature does not bind the
nonce. -/
theorem c10_encode_ignores_nonce (ga : String → Except String String)
    (c : PaymentChallenge) (n₁ n₂ : Option String) :
    encodePaymentMessage ga { c with nonce := n₁ } =
      encodePaymentMessage ga { c with nonce := n₂ } := rfl

/-! ## C3 -/

/-- C3 counterexample: `chA` and `chB` agree on price, currency, chainId,
merchant and timestamp but have different `description` field values (absent
versus empty string), yet `encodePaymentMessage` hashes them identically —
`challenge.description || ""` erases the difference.  This refutes the
claim's "if any single one of those six fields differs, the hashes
differ". -/
theorem c3_counterexample_description_collision :
    chA.description ≠ chB.description ∧
    chA.price = chB.price ∧ chA.currency = chB.currency ∧
    chA.chain_id = chB.chain_id ∧ chA.merchant = chB.merchant ∧
    chA.timestamp = chB.timestamp ∧
    encodePaymentMessage gaId chA = encodePaymentMessage gaId chB :=
  ⟨by decide, rfl, rfl, rfl, rfl, rfl, rfl⟩

/-- C3 amended: two successfully encoded challenges hash identically exactly
when their encoded inputs coincide — price, currency, chainId and timestamp
each taken verbatim (so a difference in any of them changes the hash), the
merchant taken up to `ethers.getAddress` normalization, and the description
up to the `description || ""` defaulting of a missing value. -/
theorem c3_hash_eq_iff_encoded_fields (ga : String → Except String String)
    (c₁ c₂ : PaymentChallenge) (h₁ h₂ : MessageHash)
    (e₁ : encodePaymentMessage ga c₁ = .ok h₁)
    (e₂ : encodePaymentMessage ga c₂ = .ok h₂) :
    h₁ = h₂ ↔
      (c₁.price = c₂.price ∧ c₁.currency = c₂.currency ∧
        c₁.chain_id = c₂.chain_id ∧ ga c₁.merchant = ga c₂.merchant ∧
        c₁.timestamp = c₂.timestamp ∧
        c₁.description.getD "" = c₂.description.getD "") := by
  simp only [encodePaymentMessage, createPaymentMessage] at e₁ e₂
  cases hga₁ : ga c₁.merchant with
  | error e => rw [hga₁] at e₁; cases e₁
  | ok m₁ =>
      cases hga₂ : ga c₂.merchant with
      | error e => rw [hga₂] at e₂; cases e₂
      | ok m₂ =>
          rw [hga₁] at e₁
          rw [hga₂] at e₂
          simp only [Except.ok.injEq] at e₁ e₂
          subst e₁
          subst e₂
          simp [MessageHash.mk.injEq, EIP712Domain.mk.injEq,
            PaymentMessage.mk.injEq, getEIP712Domain, hga₁, hga₂,
            Except.ok.injEq]
          tauto

/-- C3 amended, witnessed at `chA`/`chB`: their hashes are equal, and the
equivalence confirms every encoded input coincides. -/
theorem c3_witness :
    hashAB = hashAB ↔
      (chA.price = chB.price ∧ chA.currency = chB.currency ∧
        chA.chain_id = chB.chain_id ∧ gaId chA.merchant = gaId chB.merchant ∧
        chA.timestamp = chB.timestamp ∧
        chA.description.getD "" = chB.description.getD "") :=
  c3_hash_eq_iff_encoded_fields gaId chA chB hashAB hashAB rfl rfl

/-! ## C2 -/

/-- On a payment header with truthy `signature`/`signer`/`challenge` fields,
when not in effective embedded mode, `verifyPaymentHeader` performs the
local check: hash the embedded challenge and branch on `verifySignature`. -/
theorem verifyPaymentHeader_local (config : PaymentConfig)
    (wp : Option WalletProviderFn)
    (recover : String → MessageHash → Option String)
    (ga : String → Except String String) (sig signer : String)
    (challenge : PaymentChallenge) (h : MessageHash)
    (hsig : sig.isEmpty = false) (hsigner : signer.isEmpty = false)
    (hmode : config.mode = some Mode.embedded → wp = none)
    (hhash : encodePaymentMessage ga challenge = .ok h) :
    verifyPaymentHeader config wp recover ga
        (.json ⟨some sig, some signer, some challenge⟩) =
      if verifySignature recover sig h signer then
        ⟨true, some signer, none, none⟩
      else
        ⟨false, none, some "Signature verification failed", none⟩ := by
  cases hcm : config.mode with
  | none => simp [verifyPaymentHeader, hcm, hsig, hsigner, hhash]
  | some m =>
      cases m with
      | instant => simp [verifyPaymentHeader, hcm, hsig, hsigner, hhash]
      | embedded =>
          have hwp : wp = none := hmode hcm
          subst hwp
          simp [verifyPaymentHeader, hcm, hsig, hsigner, hhash]

/-- C2: `verifySignature` is true exactly when the recovered address equals
the claimed signer up to ASCII letter case; and, in local (non-embedded)
mode, a well-formed assertion verifies to
`{valid := false, error := "Signature verification failed"}` exactly when
`verifySignature` is false and to `{valid := true, signer}` (the input
signer) exactly when it is true. -/
theorem c2_verify_iff_and_local_result
    (recover : String → MessageHash → Option String)
    (ga : String → Except String String) (config : PaymentConfig)
    (wp : Option WalletProviderFn) (sig signer : String)
    (challenge : PaymentChallenge) (h : MessageHash)
    (hsig : sig.isEmpty = false) (hsigner : signer.isEmpty = false)
    (hmode : config.mode = some Mode.embedded → wp = none)
    (hhash : encodePaymentMessage ga challenge = .ok h) :
    (∀ (s : String) (hh : MessageHash) (claimed : String),
        verifySignature recover s hh claimed = true ↔
          ∃ a, recover s hh = some a ∧ asciiLower a = asciiLower claimed)
    ∧ (verifySignature recover sig h signer = false →
        verifyPaymentHeader config wp recover ga
            (.json ⟨some sig, some signer, some challenge⟩) =
          ⟨false, none, some "Signature verification failed", none⟩)
    ∧ (verifySignature recover sig h signer = true →
        verifyPaymentHeader config wp recover ga
            (.json ⟨some sig, some signer, some challenge⟩) =
          ⟨true, some signer, none, none⟩) := by
  refine ⟨?_, ?_, ?_⟩
  · intro s hh claimed
    unfold verifySignature
    cases hr : recover s hh with
    | none => simp
    | some a => simp [beq_iff_eq]
  · intro hv
    rw [verifyPaymentHeader_local config wp recover ga sig signer challenge h
      hsig hsigner hmode hhash, hv]
    rfl
  · intro hv
    rw [verifyPaymentHeader_local config wp recover ga sig signer challenge h
      hsig hsigner hmode hhash, hv]
    rfl

/-- A recovery oracle for the C2 witness: every signature recovers to the
fixed address `"0xabc"` (as a real signature over the right hash by that key
would). -/
def recEx : String → MessageHash → Option String := fun _ _ => some "0xabc"

/-- C2 witness: at a concrete well-formed assertion whose claimed signer
`"0xABC"` matches the recovered `"0xabc"` up to case, local verification
returns `{valid := true, signer := "0xABC"}`. -/
theorem c2_witness :
    (verifySignature recEx "0xsig" hashAB "0xABC" = true ↔
        ∃ a, recEx "0xsig" hashAB = some a ∧ asciiLower a = asciiLower "0xABC")
    ∧ verifyPaymentHeader cfgEx none recEx gaId
          (.json ⟨some "0xsig", some "0xABC", some chA⟩) =
        ⟨true, some "0xABC", none, none⟩ := by
  have hmain := c2_verify_iff_and_local_result recEx gaId cfgEx none
    "0xsig" "0xABC" chA hashAB rfl rfl (fun hc => by cases hc) rfl
  exact ⟨hmain.1 "0xsig" hashAB "0xABC", hmain.2.2 (by decide)⟩

/-! ## C1 -/

/-- A challenge an attacker forged: the price is `"0.00"` instead of the
route's `"0.01"`; currency, chain and merchant match the server's. -/
def chEvil : PaymentChallenge :=
  { price := "0.00", currency := "USDC", chain_id := 8453,
    merchant := "0x742d35Cc6634C0532925a3b844Bc9e7595f0bEb0",
    timestamp := 1700000000, description := none, nonce := none }

/-- The recovery oracle when the attacker has validly signed `chEvil`'s hash
with their own key: `ethers.recoverAddress` yields the attacker's address
for that signature. -/
def recAttacker : String → MessageHash → Option String :=
  fun _ _ => some "0xevil0000000000000000000000000000000000ff"

/-- The attacker's payment header: a real signature by the attacker over the
forged challenge, with the attacker as `signer`. -/
def hdrEvil : RawPaymentHeader :=
  .json { signature := some "0xdeadbeef",
          signer := some "0xevil0000000000000000000000000000000000ff",
          challenge := some chEvil }

/-- C1 evaluated on the code: an assertion embedding a challenge whose
`price` (`"0.00"`) differs from the price the server would generate for the
route (`"0.01"`) still verifies as valid — `verifyPaymentHeader` hashes the
client-supplied challenge and never re-derives or compares the expected
fields — and the middleware grants access (`next()` is called).  This
exhibits the failing input of the claim, which the specification states as a
MUST: the invariant of §3 requires verification to fail here. -/
theorem c1_server_accepts_mismatched_challenge :
    (verifyPaymentHeader cfgEx none recAttacker gaId hdrEvil).valid = true
    ∧ chEvil.price ≠ (createChallenge rcEx cfgEx 1700000000 entropy16).price
    ∧ (x402Middleware rcEx cfgEx none recAttacker gaId 1700000000 entropy16
        hdrEvil resInit).nextCalled = true :=
  ⟨by decide, by decide, by decide⟩

/-! ## C5 -/

/-- A recovery oracle that never recovers; irrelevant on the no-header
path. -/
def recNone : String → MessageHash → Option String := fun _ _ => none

/-- The wire snapshot the no-header path actually sends. -/
def wireC5 : WireResponse :=
  { status := 402, headers := [],
    body := { error := "Payment Required",
              challenge := some (createChallenge rcEx cfgEx 1700000000 entropy16),
              verificationError := none, message := none } }

/-- C5 evaluated on the code: on a request with no payment header the
middleware does send status 402 with body
`{error := "Payment Required", challenge}`, but the response that went out
carries no `X-Payment-Required` header — `issue402Response` calls
`res.setHeader` only after `res.status(402).json(...)` has already sent the
response, so the marker header is never on the wire (the `setHeader` call
fails with `ERR_HTTP_HEADERS_SENT`, and the 500 attempt of the `catch`
cannot be sent either since the response is sent: the wire keeps the 402).
The code's own unit test asserts the `setHeader` call happens, so the
marker header is clearly intended. -/
theorem c5_marker_header_missing :
    (x402Middleware rcEx cfgEx none recNone gaId 1700000000 entropy16
        .absent resInit).res.wire = some wireC5
    ∧ wireC5.status = 402
    ∧ wireC5.body =
        { error := "Payment Required",
          challenge := some (createChallenge rcEx cfgEx 1700000000 entropy16),
          verificationError := none, message := none }
    ∧ headersGet wireC5.headers "X-Payment-Required" = none
    ∧ (x402Middleware rcEx cfgEx none recNone gaId 1700000000 entropy16
        .absent resInit).nextCalled = false :=
  ⟨by decide, rfl, by decide, rfl, by decide⟩

/-! ## C4 -/

/-- A payment header that is present but malformed: not valid JSON, or
missing (or falsy) `signature`, `signer` or `challenge` fields. -/
def headerMalformed (hdr : RawPaymentHeader) : Bool :=
  match hdr with
  | .absent => false
  | .invalidJson _ => true
  | .json pd =>
      jsFalsyStr pd.signature || jsFalsyStr pd.signer || pd.challenge.isNone

/-- Hashing the embedded challenge of a present header throws
(`ethers.getAddress` rejects the merchant). -/
def hashingThrows (ga : String → Except String String)
    (hdr : RawPaymentHeader) : Bool :=
  match hdr with
  | .json pd =>
      match pd.challenge with
      | some c =>
          match encodePaymentMessage ga c with
          | .error _ => true
          | .ok _ => false
      | none => false
  | _ => false

/-- A malformed present header verifies to `valid := false` with the
explicit format error, or — for a `JSON.parse` throw — the caught
`Verification error: <message>`. -/
theorem verifyPaymentHeader_malformed (config : PaymentConfig)
    (wp : Option WalletProviderFn)
    (recover : String → MessageHash → Option String)
    (ga : String → Except String String) (hdr : RawPaymentHeader)
    (hmal : headerMalformed hdr = true) :
    (verifyPaymentHeader config wp recover ga hdr =
        ⟨false, none, some "Invalid payment header format", none⟩)
    ∨ (∃ m, verifyPaymentHeader config wp recover ga hdr =
        ⟨false, none, some ("Verification error: " ++ m), none⟩) := by
  cases hdr with
  | absent => cases hmal
  | invalidJson m => exact Or.inr ⟨m, rfl⟩
  | json pd =>
      obtain ⟨sigO, signerO, chO⟩ := pd
      left
      cases sigO with
      | none => rfl
      | some sig =>
          cases signerO with
          | none => rfl
          | some signer =>
              cases chO with
              | none => rfl
              | some ch =>
                  simp only [headerMalformed, jsFalsyStr, Option.isNone_some,
                    Bool.or_false, Bool.or_eq_true] at hmal
                  simp [verifyPaymentHeader, hmal]

/-- A well-formed header whose challenge fails to hash, outside effective
embedded mode, verifies to the caught `Verification error: <message>`. -/
theorem verifyPaymentHeader_hashThrow (config : PaymentConfig)
    (wp : Option WalletProviderFn)
    (recover : String → MessageHash → Option String)
    (ga : String → Except String String) (hdr : RawPaymentHeader)
    (hmal : headerMalformed hdr = false) (hth : hashingThrows ga hdr = true)
    (hmode : config.mode = some Mode.embedded → wp = none) :
    ∃ m, verifyPaymentHeader config wp recover ga hdr =
        ⟨false, none, some ("Verification error: " ++ m), none⟩ := by
  cases hdr with
  | absent => cases hth
  | invalidJson m => cases hmal
  | json pd =>
      obtain ⟨sigO, signerO, chO⟩ := pd
      cases sigO with
      | none => cases hmal
      | some sig =>
          cases signerO with
          | none => simp [headerMalformed, jsFalsyStr] at hmal
          | some signer =>
              cases chO with
              | none => simp [headerMalformed, jsFalsyStr] at hmal
              | some ch =>
                  simp only [headerMalformed, jsFalsyStr, Option.isNone_some,
                    Bool.or_false, Bool.or_eq_true, not_or] at hmal
                  simp only [Bool.or_eq_false_iff] at hmal
                  obtain ⟨hsig, hsigner⟩ := hmal
                  simp only [hashingThrows] at hth
                  cases henc : encodePaymentMessage ga ch with
                  | ok h => rw [henc] at hth; cases hth
                  | error m =>
                      refine ⟨m, ?_⟩
                      cases hcm : config.mode with
                      | none =>
                          simp [verifyPaymentHeader, hcm, hsig, hsigner, henc]
                      | some md =>
                          cases md with
                          | instant =>
                              simp [verifyPaymentHeader, hcm, hsig, hsigner,
                                henc]
                          | embedded =>
                              have hwp : wp = none := hmode hcm
                              subst hwp
                              simp [verifyPaymentHeader, hcm, hsig, hsigner,
                                henc]

/-- When a present payment header fails verification and the response is
fresh, the middleware sends a 402 whose body carries the challenge and the
verification error (the post-send `setHeader` and the 500 attempt of the
`catch` both fail without touching the wire). -/
theorem x402Middleware_invalid (routeConfig : RoutePaymentConfig)
    (config : PaymentConfig) (wp : Option WalletProviderFn)
    (recover : String → MessageHash → Option String)
    (ga : String → Except String String) (now : Nat) (entropy : List Nat)
    (hdr : RawPaymentHeader) (res : ResState)
    (hha : hdr ≠ .absent)
    (hv : (verifyPaymentHeader config wp recover ga hdr).valid = false)
    (hres : res.wire = none) :
    x402Middleware routeConfig config wp recover ga now entropy hdr res =
      { res := { pendingStatus := 500, pendingHeaders := res.pendingHeaders,
                 wire := some
                   { status := 402, headers := res.pendingHeaders,
                     body := { error := "Payment Required",
                               challenge := some (createChallenge routeConfig
                                 config now entropy),
                               verificationError :=
                                 (verifyPaymentHeader config wp recover ga
                                   hdr).error,
                               message := none } } },
        nextCalled := false, unhandled := some "write after end" } := by
  cases hdr with
  | absent => exact absurd rfl hha
  | invalidJson m =>
      simp [x402Middleware, hv, resStatus, resJson, resSetHeader,
        middlewareCatch, hres]
  | json pd =>
      simp [x402Middleware, hv, resStatus, resJson, resSetHeader,
        middlewareCatch, hres]

/-- C4: a request whose payment header is invalid JSON or misses the
`signature`/`signer`/`challenge` fields, and any parsing or hashing
exception, yields a wire response of status 402 (never 500) carrying an
explicit error string — `"Invalid payment header format"` or
`"Verification error: <message>"` — in the body's `verificationError`
field, and the protected route is never entered.  That
`verifyPaymentHeader` itself never throws is captured by the embedding:
it is a total function whose every exception path is an explicit error
result. -/
theorem c4_malformed_header_402_never_500 (routeConfig : RoutePaymentConfig)
    (config : PaymentConfig) (wp : Option WalletProviderFn)
    (recover : String → MessageHash → Option String)
    (ga : String → Except String String) (now : Nat) (entropy : List Nat)
    (hdr : RawPaymentHeader) (res : ResState) (hres : res.wire = none)
    (htrig : headerMalformed hdr = true
      ∨ (hashingThrows ga hdr = true
          ∧ (config.mode = some Mode.embedded → wp = none))) :
    ∃ w, (x402Middleware routeConfig config wp recover ga now entropy hdr
          res).res.wire = some w
      ∧ w.status = 402 ∧ w.status ≠ 500
      ∧ w.body.error = "Payment Required"
      ∧ (w.body.verificationError = some "Invalid payment header format"
          ∨ ∃ m, w.body.verificationError =
              some ("Verification error: " ++ m))
      ∧ (x402Middleware routeConfig config wp recover ga now entropy hdr
          res).nextCalled = false := by
  have hha : hdr ≠ .absent := by
    rcases htrig with h | ⟨h, _⟩ <;> cases hdr <;> simp_all [headerMalformed,
      hashingThrows]
  have hverr : (verifyPaymentHeader config wp recover ga hdr).valid = false
      ∧ ((verifyPaymentHeader config wp recover ga hdr).error =
            some "Invalid payment header format"
          ∨ ∃ m, (verifyPaymentHeader config wp recover ga hdr).error =
              some ("Verification error: " ++ m)) := by
    rcases htrig with h | ⟨h, hmode⟩
    · rcases verifyPaymentHeader_malformed config wp recover ga hdr h with
        hv | ⟨m, hv⟩
      · rw [hv]; exact ⟨rfl, Or.inl rfl⟩
      · rw [hv]; exact ⟨rfl, Or.inr ⟨m, rfl⟩⟩
    · cases hmal : headerMalformed hdr with
      | true =>
          rcases verifyPaymentHeader_malformed config wp recover ga hdr hmal
            with hv | ⟨m, hv⟩
          · rw [hv]; exact ⟨rfl, Or.inl rfl⟩
          · rw [hv]; exact ⟨rfl, Or.inr ⟨m, rfl⟩⟩
      | false =>
          obtain ⟨m, hv⟩ := verifyPaymentHeader_hashThrow config wp recover ga
            hdr hmal h hmode
          rw [hv]; exact ⟨rfl, Or.inr ⟨m, rfl⟩⟩
  rw [x402Middleware_invalid routeConfig config wp recover ga now entropy hdr
    res hha hverr.1 hres]
  refine ⟨_, rfl, rfl, ?_, rfl, hverr.2, rfl⟩
  simp

/-- C4 witness: a concrete request whose header is the unparsable string the
repository's own test uses (`JSON.parse` throws) receives a 402 with the
caught verification error, and never a 500. -/
theorem c4_witness :
    ∃ w, (x402Middleware rcEx cfgEx none recNone gaId 1700000000 entropy16
          (.invalidJson "Unexpected token i in JSON at position 0")
          resInit).res.wire = some w
      ∧ w.status = 402 ∧ w.status ≠ 500
      ∧ w.body.error = "Payment Required"
      ∧ (w.body.verificationError = some "Invalid payment header format"
          ∨ ∃ m, w.body.verificationError =
              some ("Verification error: " ++ m))
      ∧ (x402Middleware rcEx cfgEx none recNone gaId 1700000000 entropy16
          (.invalidJson "Unexpected token i in JSON at position 0")
          resInit).nextCalled = false :=
  c4_malformed_header_402_never_500 rcEx cfgEx none recNone gaId 1700000000
    entropy16 (.invalidJson "Unexpected token i in JSON at position 0")
    resInit rfl (Or.inl rfl)

/-- The empty string is empty. -/
theorem empty_isEmpty : ("" : String).isEmpty = true := rfl

/-! ## C6 -/

/-- A route configuration that supplies a currency and a chain id which are
both falsy in JavaScript (`""` and `0`). -/
def rcFalsy : RoutePaymentConfig :=
  { price := "0.01", currency := some "", chainId := some 0,
    description := none }

/-- A server config with distinct defaults, to observe the fallback. -/
def cfgFalsy : PaymentConfig :=
  { merchantAddress := "0x742d35Cc6634C0532925a3b844Bc9e7595f0bEb0",
    chainId := some 1, currency := some "EUR",
    mode := some Mode.instant, waasProvider := none }

/-- C6 counterexample: the route supplies `currency = ""` and `chainId = 0`,
but the created challenge carries the config's `"EUR"` and `1` instead —
`routeConfig.currency || serverConfig.currency || "USDC"` and
`routeConfig.chainId || serverConfig.chainId || 8453` use JS truthiness, so
a supplied empty string or zero falls through to the config value.  This
refutes the claim's "currency is routeConfig.currency if supplied" and
"chain id is routeConfig.chainId if supplied". -/
theorem c6_counterexample_falsy_route_values :
    rcFalsy.currency = some "" ∧ rcFalsy.chainId = some 0
    ∧ (createChallenge rcFalsy cfgFalsy 1700000000 entropy16).currency = "EUR"
    ∧ "EUR" ≠ ""
    ∧ (createChallenge rcFalsy cfgFalsy 1700000000 entropy16).chain_id = 1
    ∧ (1 : Nat) ≠ 0 :=
  ⟨rfl, rfl, rfl, by decide, rfl, by decide⟩

/-- C6 amended: `createChallenge` takes the route's currency when it is
supplied and truthy (non-empty), else the config's when supplied and truthy,
else `"USDC"`; the route's chain id when supplied and truthy (non-zero),
else the config's when supplied and truthy, else `8453` (JS `||`
semantics: a supplied `""` or `0` falls through); the merchant is exactly
`config.merchantAddress`, the price exactly `routeConfig.price` (never
defaulted), the description the route's, the timestamp the current time, and
the nonce the hex encoding of the 16 freshly drawn random bytes (34
characters: `"0x"` plus two per byte, so at least 16 bytes are encoded). -/
theorem c6_createChallenge_fields (routeConfig : RoutePaymentConfig)
    (config : PaymentConfig) (now : Nat) (entropy : List Nat)
    (hlen : entropy.length = 16) :
    (createChallenge routeConfig config now entropy).price = routeConfig.price
    ∧ (createChallenge routeConfig config now entropy).merchant =
        config.merchantAddress
    ∧ (createChallenge routeConfig config now entropy).timestamp = now
    ∧ (createChallenge routeConfig config now entropy).description =
        routeConfig.description
    ∧ (createChallenge routeConfig config now entropy).nonce =
        some (generateNonce entropy)
    ∧ (generateNonce entropy).length = 2 + 2 * 16
    ∧ (∀ s, routeConfig.currency = some s → s ≠ "" →
        (createChallenge routeConfig config now entropy).currency = s)
    ∧ ((routeConfig.currency = none ∨ routeConfig.currency = some "") →
        (∀ s, config.currency = some s → s ≠ "" →
          (createChallenge routeConfig config now entropy).currency = s)
        ∧ ((config.currency = none ∨ config.currency = some "") →
            (createChallenge routeConfig config now entropy).currency =
              "USDC"))
    ∧ (∀ n, routeConfig.chainId = some n → n ≠ 0 →
        (createChallenge routeConfig config now entropy).chain_id = n)
    ∧ ((routeConfig.chainId = none ∨ routeConfig.chainId = some 0) →
        (∀ n, config.chainId = some n → n ≠ 0 →
          (createChallenge routeConfig config now entropy).chain_id = n)
        ∧ ((config.chainId = none ∨ config.chainId = some 0) →
            (createChallenge routeConfig config now entropy).chain_id =
              8453)) := by
  refine ⟨rfl, rfl, rfl, rfl, rfl, ?_, ?_, ?_, ?_, ?_⟩
  · rw [generateNonce_length, hlen]
  · intro s hs hne
    have he : s.isEmpty = false := by
      cases hss : s.isEmpty
      · rfl
      · exact absurd ((String.isEmpty_iff s).mp hss) hne
    simp [createChallenge, jsOrStr, hs, he]
  · intro hroute
    constructor
    · intro s hs hne
      have he : s.isEmpty = false := by
        cases hss : s.isEmpty
        · rfl
        · exact absurd ((String.isEmpty_iff s).mp hss) hne
      rcases hroute with h | h <;> simp [createChallenge, jsOrStr, h, hs, he, empty_isEmpty]
    · intro hcfg
      rcases hroute with h | h <;> rcases hcfg with h' | h' <;>
        simp [createChallenge, jsOrStr, h, h', empty_isEmpty]
  · intro n hn hne
    simp [createChallenge, jsOrNat, hn, hne]
  · intro hroute
    constructor
    · intro n hn hne
      rcases hroute with h | h <;> simp [createChallenge, jsOrNat, h, hn, hne]
    · intro hcfg
      rcases hroute with h | h <;> rcases hcfg with h' | h' <;>
        simp [createChallenge, jsOrNat, h, h']

/-- C6 amended, witnessed on the README route (truthy currency `"USDC"`,
chain 8453) with a concrete 16-byte entropy draw. -/
theorem c6_witness :
    (createChallenge rcEx cfgEx 1700000000 entropy16).price = rcEx.price
    ∧ (createChallenge rcEx cfgEx 1700000000 entropy16).merchant =
        cfgEx.merchantAddress
    ∧ (createChallenge rcEx cfgEx 1700000000 entropy16).timestamp = 1700000000
    ∧ (createChallenge rcEx cfgEx 1700000000 entropy16).nonce =
        some (generateNonce entropy16)
    ∧ (generateNonce entropy16).length = 2 + 2 * 16
    ∧ (createChallenge rcEx cfgEx 1700000000 entropy16).currency = "USDC"
    ∧ (createChallenge rcEx cfgEx 1700000000 entropy16).chain_id = 8453 := by
  have hmain := c6_createChallenge_fields rcEx cfgEx 1700000000 entropy16 rfl
  exact ⟨hmain.1, hmain.2.1, hmain.2.2.1, hmain.2.2.2.2.1,
    hmain.2.2.2.2.2.1,
    hmain.2.2.2.2.2.2.1 "USDC" rfl (by decide),
    hmain.2.2.2.2.2.2.2.2.1 8453 rfl (by decide)⟩

/-! ## C7 -/

/-- `x402Fetch` either returns the first response after one effective
request, or the second response after the original effective request and
the retry `x402FetchRetry`. -/
theorem x402Fetch_cases (handler : PaymentChallenge → Option String)
    (net : Nat → ClientResponse) (input : FetchInput)
    (init : Option RequestInit) :
    x402Fetch handler net input init = (net 0, [effectiveRequest input init])
    ∨ ∃ ph, x402Fetch handler net input init =
        (net 1, [effectiveRequest input init, x402FetchRetry input init ph]) := by
  by_cases h : (net 0).status = 402
  · cases hb : (net 0).body with
    | error m => exact Or.inl (by unfold x402Fetch; simp [h, hb])
    | ok co =>
        cases co with
        | none => exact Or.inl (by unfold x402Fetch; simp [h, hb])
        | some ch =>
            cases hh : handler ch with
            | none => exact Or.inl (by unfold x402Fetch; simp [h, hb, hh])
            | some ph =>
                cases hpe : ph.isEmpty with
                | true =>
                    exact Or.inl (by unfold x402Fetch; simp [h, hb, hh, hpe])
                | false =>
                    exact Or.inr ⟨ph, by
                      unfold x402Fetch x402FetchRetry
                      simp [h, hb, hh, hpe]⟩
  · exact Or.inl (by unfold x402Fetch; simp [h])

/-- `X402Client.request` either raises, or returns the first response after
one request, or the second response after the original request and a retry
that only sets the payment header. -/
theorem X402Client.request_cases
    (rpcHandler : Option (PaymentChallenge → Option PaymentSignature))
    (stringify : PaymentSignature → String) (net : Nat → ClientResponse)
    (req : ClientRequest) :
    (∃ e, X402Client.request rpcHandler stringify net req = (.error e, [req]))
    ∨ X402Client.request rpcHandler stringify net req = (.ok (net 0), [req])
    ∨ ∃ ph, X402Client.request rpcHandler stringify net req =
        (.ok (net 1),
         [req, { req with headers := headersSet req.headers "X-PAYMENT" ph }]) := by
  by_cases h : (net 0).status = 402
  · cases hb : (net 0).body with
    | error m =>
        exact Or.inl ⟨"Failed to handle 402 challenge: " ++ m,
          by unfold X402Client.request; simp [h, hb]⟩
    | ok co =>
        cases co with
        | none =>
            exact Or.inl
              ⟨"Failed to handle 402 challenge: Invalid 402 challenge format",
               by unfold X402Client.request; simp [h, hb]⟩
        | some ch =>
            cases rpcHandler with
            | none =>
                exact Or.inl
                  ⟨"Failed to handle 402 challenge: No RPC handler configured. Use setRpcHandler() or provide rpcHandler in constructor.",
                   by unfold X402Client.request; simp [h, hb]⟩
            | some handler =>
                cases hh : handler ch with
                | none =>
                    exact Or.inl
                      ⟨"Failed to handle 402 challenge: Failed to obtain payment signature",
                       by unfold X402Client.request; simp [h, hb, hh]⟩
                | some paymentData =>
                    exact Or.inr (Or.inr
                      ⟨X402Client.createPaymentHeader stringify paymentData,
                       by unfold X402Client.request; simp [h, hb, hh]⟩)
  · exact Or.inr (Or.inl (by unfold X402Client.request; simp [h]))

/-- C7: each transport issues at most two network calls per invocation, and
whenever a retry happened the second response is returned as the final
result whatever its status — in particular a second 402 triggers no further
retry. -/
theorem c7_at_most_two_calls (handler : PaymentChallenge → Option String)
    (rpcHandler : Option (PaymentChallenge → Option PaymentSignature))
    (stringify : PaymentSignature → String) (net : Nat → ClientResponse)
    (input : FetchInput) (init : Option RequestInit) (req : ClientRequest) :
    ((x402Fetch handler net input init).2.length ≤ 2
      ∧ ((x402Fetch handler net input init).2.length = 2 →
          (x402Fetch handler net input init).1 = net 1))
    ∧ ((X402Client.request rpcHandler stringify net req).2.length ≤ 2
      ∧ ((X402Client.request rpcHandler stringify net req).2.length = 2 →
          (X402Client.request rpcHandler stringify net req).1 =
            .ok (net 1))) := by
  constructor
  · rcases x402Fetch_cases handler net input init with hc | ⟨ph, hc⟩ <;>
      rw [hc] <;> simp
  · rcases X402Client.request_cases rpcHandler stringify net req with
      ⟨e, hc⟩ | hc | ⟨ph, hc⟩ <;> rw [hc] <;> simp

/-- The client-side signer of the README flow: always produces a payment
header. -/
def handlerPay : PaymentChallenge → Option String :=
  fun _ => some "signed_payment_header"

/-- An rpc handler that signs every challenge. -/
def rpcPay : PaymentChallenge → Option PaymentSignature :=
  fun ch => some { signature := "0x1234", signer := "0x5678",
                   challenge := ch, messageHash := none }

/-- A concrete JSON serialization of the assertion. -/
def stringifyEx : PaymentSignature → String := fun _ => "assertion_json"

/-- A network that answers 402 with a parsable challenge to every call —
also to the retry. -/
def netC9 : Nat → ClientResponse :=
  fun _ => { status := 402, body := .ok (some chA) }

/-- The caller's request record of the client-side examples: a `GET` with an
`Authorization` header (serving both as `X402Client` options and as a
`Request` object). -/
def reqEx : ClientRequest :=
  { method := some "GET",
    headers := [("Authorization", "Bearer token123")], body := none }

/-- The same caller headers supplied through the `init` argument of
`fetch`. -/
def initEx : RequestInit :=
  { method := some "GET",
    headers := some [("Authorization", "Bearer token123")], body := none }

/-- C7 witness: against a network that answers 402 to the retry as well,
both transports stop after exactly two calls and surface that second 402. -/
theorem c7_witness :
    (x402Fetch handlerPay netC9 (.url "https://api.example.com/protected")
      (some initEx)).2.length ≤ 2
    ∧ (x402Fetch handlerPay netC9 (.url "https://api.example.com/protected")
        (some initEx)).1 = netC9 1
    ∧ (X402Client.request (some rpcPay) stringifyEx netC9 reqEx).2.length ≤ 2
    ∧ (X402Client.request (some rpcPay) stringifyEx netC9 reqEx).1 =
        .ok (netC9 1) := by
  have hmain := c7_at_most_two_calls handlerPay (some rpcPay) stringifyEx
    netC9 (.url "https://api.example.com/protected") (some initEx) reqEx
  exact ⟨hmain.1.1, hmain.1.2 (by decide), hmain.2.1, hmain.2.2 (by decide)⟩

/-! ## C8 -/

/-- The retried request keeps the original effective method: the retry init
spreads `init`, so its method member is `init`'s, and a `Request` object's
method shows through exactly when `init` supplies none — as on the first
call. -/
theorem x402FetchRetry_method (input : FetchInput) (init : Option RequestInit)
    (ph : String) :
    (x402FetchRetry input init ph).method =
      (effectiveRequest input init).method := by
  cases init <;> cases input <;> simp [x402FetchRetry, effectiveRequest]

/-- The retried request keeps the original effective body, for the same
reason as the method. -/
theorem x402FetchRetry_body (input : FetchInput) (init : Option RequestInit)
    (ph : String) :
    (x402FetchRetry input init ph).body =
      (effectiveRequest input init).body := by
  cases init <;> cases input <;> simp [x402FetchRetry, effectiveRequest]

/-- The retried request's headers are exactly the payment-header update of
`init`'s headers member (empty when absent) — a `Request` object's headers
do not contribute, since the present retry `headers` member overrides
them. -/
theorem x402FetchRetry_headers (input : FetchInput) (init : Option RequestInit)
    (ph : String) :
    (x402FetchRetry input init ph).headers =
      headersSet ((init.bind fun i => i.headers).getD []) "X-PAYMENT" ph := by
  cases init <;> cases input <;> rfl

/-- When `init` itself carries the headers, the original effective request's
headers are exactly those. -/
theorem effectiveRequest_headers_of_init (input : FetchInput)
    (i : RequestInit) (hs : List (String × String))
    (hih : i.headers = some hs) :
    (effectiveRequest input (some i)).headers = hs := by
  cases input <;> simp [effectiveRequest, hih]

/-- C8 counterexample: the caller passes a `Request` object carrying an
`Authorization` header as `fetch`'s `input`, with no `init` — the exact
shape the global wrapper installed by `initX402Fetch` receives.  The retry
builds its headers from `new Headers(init?.headers)` alone, so the retried
effective request has only the payment header: the caller-set
`Authorization` header is dropped, refuting the claim that every caller-set
header is carried on the retry. -/
theorem c8_counterexample_request_object_headers :
    (x402Fetch handlerPay netC9 (.request reqEx) none).2 =
      [reqEx, x402FetchRetry (.request reqEx) none "signed_payment_header"]
    ∧ headersGet reqEx.headers "Authorization" = some "Bearer token123"
    ∧ headersGet (x402FetchRetry (.request reqEx) none
        "signed_payment_header").headers "Authorization" = none :=
  ⟨by decide, by decide, by decide⟩

/-- C8 amended: whenever `x402Fetch` retried, the retried request has the
original effective method and body, its headers are `init`'s headers plus
the added `X-PAYMENT` header — so every header supplied through `init` is
carried unchanged, and when the caller's headers were supplied through
`init` the retry differs from the original request only by the payment
header — but headers set on a `Request` object passed as `input` are not
carried (the retry's present headers member overrides them, see the
counterexample).  `X402Client.request` (string URL and options only)
preserves every caller-set header, method and body, differing only by the
added payment header. -/
theorem c8_retry_preserves_request (handler : PaymentChallenge → Option String)
    (rpcHandler : Option (PaymentChallenge → Option PaymentSignature))
    (stringify : PaymentSignature → String) (net : Nat → ClientResponse)
    (input : FetchInput) (init : Option RequestInit) (req : ClientRequest) :
    (∀ r₁ r₂, (x402Fetch handler net input init).2 = [r₁, r₂] →
        r₂.method = r₁.method ∧ r₂.body = r₁.body
        ∧ (∀ k, asciiLower k ≠ asciiLower "X-PAYMENT" →
            headersGet r₂.headers k =
              headersGet ((init.bind fun i => i.headers).getD []) k)
        ∧ (∀ i hs, init = some i → i.headers = some hs →
            ∀ k, asciiLower k ≠ asciiLower "X-PAYMENT" →
              headersGet r₂.headers k = headersGet r₁.headers k)
        ∧ ∃ v, headersGet r₂.headers "X-PAYMENT" = some v)
    ∧ (∀ r₂, (X402Client.request rpcHandler stringify net req).2 = [req, r₂] →
        r₂.method = req.method ∧ r₂.body = req.body
        ∧ (∀ k, asciiLower k ≠ asciiLower "X-PAYMENT" →
            headersGet r₂.headers k = headersGet req.headers k)
        ∧ ∃ v, headersGet r₂.headers "X-PAYMENT" = some v) := by
  constructor
  · intro r₁ r₂ hr
    rcases x402Fetch_cases handler net input init with hc | ⟨ph, hc⟩
    · rw [hc] at hr; simp at hr
    · rw [hc] at hr
      simp only [List.cons.injEq] at hr
      have hr1 : r₁ = effectiveRequest input init := hr.1.symm
      have hr2 : r₂ = x402FetchRetry input init ph := hr.2.1.symm
      subst hr1
      subst hr2
      refine ⟨x402FetchRetry_method input init ph,
        x402FetchRetry_body input init ph, ?_, ?_, ?_⟩
      · intro k hk
        rw [x402FetchRetry_headers input init ph]
        exact headersGet_headersSet_ne _ k "X-PAYMENT" ph hk
      · intro i hs hi hih k hk
        subst hi
        rw [x402FetchRetry_headers input (some i) ph,
          effectiveRequest_headers_of_init input i hs hih]
        have hbase : (((some i).bind fun j => j.headers).getD []) = hs := by
          simp [hih]
        rw [hbase]
        exact headersGet_headersSet_ne hs k "X-PAYMENT" ph hk
      · rw [x402FetchRetry_headers input init ph]
        exact ⟨ph, headersGet_headersSet_self _ "X-PAYMENT" ph⟩
  · intro r₂ hr
    rcases X402Client.request_cases rpcHandler stringify net req with
      ⟨e, hc⟩ | hc | ⟨ph, hc⟩
    · rw [hc] at hr; simp at hr
    · rw [hc] at hr; simp at hr
    · rw [hc] at hr
      simp only [List.cons.injEq] at hr
      have hr2 : r₂ = { req with
          headers := headersSet req.headers "X-PAYMENT" ph } := hr.2.1.symm
      subst hr2
      exact ⟨rfl, rfl,
        fun k hk => headersGet_headersSet_ne req.headers k "X-PAYMENT" ph hk,
        ⟨ph, headersGet_headersSet_self req.headers "X-PAYMENT" ph⟩⟩

/-- The original effective request when the caller's headers come through
`init` on a URL input. -/
def fetchOrigEx : ClientRequest :=
  effectiveRequest (.url "https://api.example.com/protected") (some initEx)

/-- The retried effective request for that call. -/
def fetchRetryEx : ClientRequest :=
  x402FetchRetry (.url "https://api.example.com/protected") (some initEx)
    "signed_payment_header"

/-- The retried request `X402Client.request` builds for `reqEx` (the
payment header value is the serialized assertion). -/
def retriedEx : ClientRequest :=
  { reqEx with
      headers := headersSet reqEx.headers "X-PAYMENT" "assertion_json" }

/-- C8 amended, witnessed concretely: on the `init`-supplied-headers fetch
call the retry keeps method, body and the `Authorization` header and adds
the payment header; the client retry likewise. -/
theorem c8_witness :
    fetchRetryEx.method = fetchOrigEx.method
    ∧ fetchRetryEx.body = fetchOrigEx.body
    ∧ headersGet fetchRetryEx.headers "Authorization" =
        headersGet fetchOrigEx.headers "Authorization"
    ∧ (∃ v, headersGet fetchRetryEx.headers "X-PAYMENT" = some v)
    ∧ retriedEx.method = reqEx.method ∧ retriedEx.body = reqEx.body
    ∧ headersGet retriedEx.headers "Authorization" =
        headersGet reqEx.headers "Authorization"
    ∧ ∃ v, headersGet retriedEx.headers "X-PAYMENT" = some v := by
  have hmain := c8_retry_preserves_request handlerPay (some rpcPay)
    stringifyEx netC9 (.url "https://api.example.com/protected") (some initEx)
    reqEx
  have hf := hmain.1 fetchOrigEx fetchRetryEx (by decide)
  have hc := hmain.2 retriedEx (by decide)
  exact ⟨hf.1, hf.2.1,
    hf.2.2.2.1 initEx [("Authorization", "Bearer token123")] rfl rfl
      "Authorization" (by decide),
    hf.2.2.2.2,
    hc.1, hc.2.1, hc.2.2.1 "Authorization" (by decide), hc.2.2.2⟩

/-! ## C9 -/

/-- C9 counterexample: with a 402 response carrying a parsable challenge and
a signer that yields nothing, `x402Fetch` does not fail the operation — it
completes normally, returning the original 402 response to the caller after
a single network call (`if (!paymentHeader) return response`), raising no
error at all.  This refutes the claim for the fetch-wrapper transport the
claim's sources cite. -/
theorem c9_counterexample_fetch_returns_402 :
    x402Fetch (fun _ => none) netC9 (.request reqEx) none =
      (netC9 0, [reqEx])
    ∧ (netC9 0).status = 402 :=
  ⟨by decide, rfl⟩

/-- C9 amended: when the 402 carries a parsable challenge and the signer
yields no assertion, `X402Client.request` raises the signing failure
(`"Failed to handle 402 challenge: Failed to obtain payment signature"`,
the code's `PaymentSigningFailed`) to the caller and issues no second
network call, while `x402Fetch` instead returns the original 402 response
unmodified — also without a second network call — and raises nothing. -/
theorem c9_signing_failure_behavior
    (h : PaymentChallenge → Option PaymentSignature)
    (hf : PaymentChallenge → Option String)
    (stringify : PaymentSignature → String) (net : Nat → ClientResponse)
    (input : FetchInput) (init : Option RequestInit) (req : ClientRequest)
    (ch : PaymentChallenge)
    (h402 : (net 0).status = 402)
    (hbody : (net 0).body = .ok (some ch))
    (hnull : h ch = none) (hfnull : hf ch = none) :
    X402Client.request (some h) stringify net req =
      (.error "Failed to handle 402 challenge: Failed to obtain payment signature",
       [req])
    ∧ x402Fetch hf net input init = (net 0, [effectiveRequest input init]) := by
  constructor
  · unfold X402Client.request
    simp [h402, hbody, hnull]
  · unfold x402Fetch
    simp [h402, hbody, hfnull]

/-- C9 witness: the amended behaviour at the concrete 402-with-challenge
network. -/
theorem c9_witness :
    X402Client.request (some (fun _ => none)) stringifyEx netC9 reqEx =
      (.error "Failed to handle 402 challenge: Failed to obtain payment signature",
       [reqEx])
    ∧ x402Fetch (fun _ => none) netC9 (.request reqEx) none =
        (netC9 0, [effectiveRequest (.request reqEx) none]) :=
  c9_signing_failure_behavior (fun _ => none) (fun _ => none) stringifyEx
    netC9 (.request reqEx) none reqEx chA rfl rfl rfl rfl
